import Mathlib

/-!
Shallow embedding of the VTK-m dual-residency `ArrayHandle`
(src/vtkm/cont/ArrayHandle.h) and proofs about its residency
state machine.

The `ErrorControlBadValue` exceptions thrown by the source are mapped to
named error kinds by their message text:
  "read-only control portal"        -> readOnly
  "contains no data" / "has no data when Prepare..." -> noData
  "cannot be used to grow array"    -> growNotAllowed
In addition, `nullDeref` models dereferencing a null `boost::scoped_ptr`
(undefined behavior in the C++ source, distinct from any thrown error).

Every public operation is modelled as a function from the internal state
block to a pair of an outcome (`Except CtrlError result`) and the
post-state: a thrown C++ exception leaves the object in the state it had
at the throw point, which the pair's second component records.
-/

namespace vtkm

instance {ε α : Type} [DecidableEq ε] [DecidableEq α] :
    DecidableEq (Except ε α) := fun a b =>
  match a, b with
  | .ok x, .ok y =>
      if h : x = y then isTrue (by rw [h])
      else isFalse (by intro hc; cases hc; exact h rfl)
  | .error e, .error f =>
      if h : e = f then isTrue (by rw [h])
      else isFalse (by intro hc; cases hc; exact h rfl)
  | .ok _, .error _ => isFalse (by intro hc; cases hc)
  | .error _, .ok _ => isFalse (by intro hc; cases hc)

inductive CtrlError where
  | noData
  | readOnly
  | growNotAllowed
  | nullDeref
deriving DecidableEq

/-- An array portal: an indexed view of a sequence of elements. In the
model a portal is a value snapshot of the data it ranges over. -/
structure Portal (α : Type) where
  data : List α
deriving DecidableEq

/-- Modelled from the spec: `vtkm/cont/Storage.h` is not under src/.
Host-side owner of a resizable sequence; supports length, mutable/const
accessors, shrink-only resize (logical truncation) and release (frees to
empty). -/
structure Storage (α : Type) where
  data : List α
deriving DecidableEq

def Storage.GetNumberOfValues {α : Type} (s : Storage α) : Nat :=
  s.data.length

def Storage.Shrink {α : Type} (s : Storage α) (n : Nat) : Storage α :=
  ⟨s.data.take n⟩

def Storage.ReleaseResources {α : Type} (_s : Storage α) : Storage α :=
  ⟨[]⟩

def Storage.GetPortal {α : Type} (s : Storage α) : Portal α :=
  ⟨s.data⟩

def Storage.GetPortalConst {α : Type} (s : Storage α) : Portal α :=
  ⟨s.data⟩

/-- Modelled from the spec: `vtkm/cont/internal/ArrayHandleExecutionManager.h`
is not under src/. Device-resident owner of a sequence bound to exactly one
device identity (a `Nat` device tag in the model); supports identity check,
copy-in for input and in-place use, allocate for output, copy-out, release,
length and device-scoped accessors. -/
structure ExecutionManager (α : Type) where
  device : Nat
  data : List α
deriving DecidableEq

def ExecutionManager.IsDeviceAdapter {α : Type}
    (m : ExecutionManager α) (d : Nat) : Bool :=
  m.device == d

def ExecutionManager.GetNumberOfValues {α : Type}
    (m : ExecutionManager α) : Nat :=
  m.data.length

def ExecutionManager.Shrink {α : Type}
    (m : ExecutionManager α) (n : Nat) : ExecutionManager α :=
  { m with data := m.data.take n }

def ExecutionManager.ReleaseResources {α : Type}
    (m : ExecutionManager α) : ExecutionManager α :=
  { m with data := [] }

def ExecutionManager.LoadDataForInput {α : Type}
    (m : ExecutionManager α) (src : List α) : ExecutionManager α :=
  { m with data := src }

def ExecutionManager.LoadDataForInPlace {α : Type}
    (m : ExecutionManager α) (src : List α) : ExecutionManager α :=
  { m with data := src }

/-- Allocate a device array of length `n` with no copy; `dflt` stands for
the indeterminate contents of freshly allocated memory. -/
def ExecutionManager.AllocateArrayForOutput {α : Type}
    (m : ExecutionManager α) (n : Nat) (dflt : α) : ExecutionManager α :=
  { m with data := List.replicate n dflt }

def ExecutionManager.RetrieveOutputData {α : Type}
    (m : ExecutionManager α) : List α :=
  m.data

def ExecutionManager.GetPortalExecution {α : Type}
    (m : ExecutionManager α) : Portal α :=
  ⟨m.data⟩

def ExecutionManager.GetPortalConstExecution {α : Type}
    (m : ExecutionManager α) : Portal α :=
  ⟨m.data⟩

/-- The private state block of an `ArrayHandle`
(ArrayHandle.h lines 408-420). `ExecutionArray` is a
`boost::scoped_ptr`, modelled as an `Option`; dereferencing `none` is the
`nullDeref` outcome. -/
structure InternalStruct (α : Type) where
  UserPortal : Portal α
  UserPortalValid : Bool
  ControlArray : Storage α
  ControlArrayValid : Bool
  ExecutionArray : Option (ExecutionManager α)
  ExecutionArrayValid : Bool
deriving DecidableEq

/-- Default constructor (ArrayHandle.h lines 111-116): all three validity
flags false, no execution manager. -/
def mkEmpty {α : Type} : InternalStruct α :=
  { UserPortal := ⟨[]⟩
    UserPortalValid := false
    ControlArray := ⟨[]⟩
    ControlArrayValid := false
    ExecutionArray := none
    ExecutionArrayValid := false }

/-- Constructor from a user portal (ArrayHandle.h lines 120-128), the
entry point used by `make_ArrayHandle`. -/
def mkFromUserPortal {α : Type} (l : List α) : InternalStruct α :=
  { mkEmpty with UserPortal := ⟨l⟩, UserPortalValid := true }

/-- Protected constructor from a pre-populated storage
(ArrayHandle.h lines 398-405). -/
def mkFromStorage {α : Type} (l : List α) : InternalStruct α :=
  { mkEmpty with ControlArray := ⟨l⟩, ControlArrayValid := true }

/-- `SyncControlArray` (ArrayHandle.h lines 477-497). When neither the
user portal nor the control array is valid it calls
`ExecutionArray->RetrieveOutputData` unconditionally — with no
`ExecutionArrayValid` guard and no null check — so on a state with a null
manager it dereferences null. -/
def SyncControlArray {α : Type} (s : InternalStruct α) :
    Except CtrlError (InternalStruct α) :=
  if !s.UserPortalValid && !s.ControlArrayValid then
    match s.ExecutionArray with
    | none => .error .nullDeref
    | some m =>
        .ok { s with ControlArray := ⟨m.RetrieveOutputData⟩
                     ControlArrayValid := true }
  else
    .ok s

/-- `ReleaseResourcesExecution` (ArrayHandle.h lines 240-247). -/
def ReleaseResourcesExecution {α : Type} (s : InternalStruct α) :
    Except CtrlError Unit × InternalStruct α :=
  if s.ExecutionArrayValid then
    match s.ExecutionArray with
    | none => (.error .nullDeref, s)
    | some m =>
        (.ok (), { s with ExecutionArray := some m.ReleaseResources
                          ExecutionArrayValid := false })
  else
    (.ok (), s)

/-- `ReleaseResources` (ArrayHandle.h lines 251-263). -/
def ReleaseResources {α : Type} (s : InternalStruct α) :
    Except CtrlError Unit × InternalStruct α :=
  match ReleaseResourcesExecution s with
  | (.error e, s1) => (.error e, s1)
  | (.ok _, s1) =>
      let s2 := { s1 with UserPortalValid := false }
      if s2.ControlArrayValid then
        (.ok (), { s2 with ControlArray := s2.ControlArray.ReleaseResources
                           ControlArrayValid := false })
      else
        (.ok (), s2)

/-- `GetPortalControl` (ArrayHandle.h lines 132-152): sync first, then
read-only check, then return the mutable control portal after releasing
execution resources. -/
def GetPortalControl {α : Type} (s : InternalStruct α) :
    Except CtrlError (Portal α) × InternalStruct α :=
  match SyncControlArray s with
  | .error e => (.error e, s)
  | .ok s1 =>
      if s1.UserPortalValid then
        (.error .readOnly, s1)
      else if s1.ControlArrayValid then
        let r := ReleaseResourcesExecution s1
        (.ok r.2.ControlArray.GetPortal, r.2)
      else
        (.error .noData, s1)

/-- `GetPortalConstControl` (ArrayHandle.h lines 156-171). Declared const
in the source but the sync mutates the cache through a `const_cast`. -/
def GetPortalConstControl {α : Type} (s : InternalStruct α) :
    Except CtrlError (Portal α) × InternalStruct α :=
  match SyncControlArray s with
  | .error e => (.error e, s)
  | .ok s1 =>
      if s1.UserPortalValid then
        (.ok s1.UserPortal, s1)
      else if s1.ControlArrayValid then
        (.ok s1.ControlArray.GetPortalConst, s1)
      else
        (.error .noData, s1)

/-- `GetNumberOfValues` (ArrayHandle.h lines 175-194). The execution
branch dereferences the manager pointer, guarded only by
`ExecutionArrayValid`. -/
def GetNumberOfValues {α : Type} (s : InternalStruct α) :
    Except CtrlError Nat :=
  if s.UserPortalValid then
    .ok s.UserPortal.data.length
  else if s.ControlArrayValid then
    .ok s.ControlArray.GetNumberOfValues
  else if s.ExecutionArrayValid then
    match s.ExecutionArray with
    | none => .error .nullDeref
    | some m => .ok m.GetNumberOfValues
  else
    .ok 0

/-- `Shrink` (ArrayHandle.h lines 204-235). Checks `n < m` before the
read-only check, so growing always reports `growNotAllowed` even on a
read-only handle. -/
def Shrink {α : Type} (s : InternalStruct α) (n : Nat) :
    Except CtrlError Unit × InternalStruct α :=
  match GetNumberOfValues s with
  | .error e => (.error e, s)
  | .ok m =>
      if n < m then
        if s.UserPortalValid then
          (.error .readOnly, s)
        else
          let s1 :=
            if s.ControlArrayValid then
              { s with ControlArray := s.ControlArray.Shrink n }
            else s
          if s1.ExecutionArrayValid then
            match s1.ExecutionArray with
            | none => (.error .nullDeref, s1)
            | some mg =>
                (.ok (), { s1 with ExecutionArray := some (mg.Shrink n) })
          else
            (.ok (), s1)
      else if n == m then
        (.ok (), s)
      else
        (.error .growNotAllowed, s)

/-- `PrepareForDevice` (ArrayHandle.h lines 431-469). Rebinding to a
different device first syncs the control array (so device-only data is not
lost), then replaces the manager with a fresh one bound to `d` and clears
the valid flag; binding to the already-bound device is a no-op. -/
def PrepareForDevice {α : Type} (s : InternalStruct α) (d : Nat) :
    Except CtrlError (InternalStruct α) :=
  match s.ExecutionArray with
  | some m =>
      if m.IsDeviceAdapter d then
        .ok s
      else
        match SyncControlArray s with
        | .error e => .error e
        | .ok s1 =>
            .ok { s1 with ExecutionArray := some ⟨d, []⟩
                          ExecutionArrayValid := false }
  | none =>
      .ok { s with ExecutionArray := some ⟨d, []⟩ }

/-- `PrepareForInput` (ArrayHandle.h lines 271-304). Note the first test:
if `ExecutionArrayValid` the call returns the existing manager's portal
without ever consulting the device tag. -/
def PrepareForInput {α : Type} (s : InternalStruct α) (d : Nat) :
    Except CtrlError (Portal α) × InternalStruct α :=
  if s.ExecutionArrayValid then
    match s.ExecutionArray with
    | none => (.error .nullDeref, s)
    | some m => (.ok m.GetPortalConstExecution, s)
  else if s.UserPortalValid then
    match PrepareForDevice s d with
    | .error e => (.error e, s)
    | .ok s1 =>
        match s1.ExecutionArray with
        | none => (.error .nullDeref, s1)
        | some m =>
            let m2 := m.LoadDataForInput s1.UserPortal.data
            let s2 := { s1 with ExecutionArray := some m2
                                ExecutionArrayValid := true }
            (.ok m2.GetPortalConstExecution, s2)
  else if s.ControlArrayValid then
    match PrepareForDevice s d with
    | .error e => (.error e, s)
    | .ok s1 =>
        match s1.ExecutionArray with
        | none => (.error .nullDeref, s1)
        | some m =>
            let m2 := m.LoadDataForInput s1.ControlArray.data
            let s2 := { s1 with ExecutionArray := some m2
                                ExecutionArrayValid := true }
            (.ok m2.GetPortalConstExecution, s2)
  else
    (.error .noData, s)

/-- `PrepareForOutput` (ArrayHandle.h lines 313-342): invalidates both
host-side views, binds the device, allocates with no copy, and marks the
execution array valid immediately. `dflt` models the indeterminate
contents of the fresh allocation. -/
def PrepareForOutput {α : Type} (s : InternalStruct α) (n : Nat) (d : Nat)
    (dflt : α) : Except CtrlError (Portal α) × InternalStruct α :=
  let s0 := { s with UserPortalValid := false, ControlArrayValid := false }
  match PrepareForDevice s0 d with
  | .error e => (.error e, s0)
  | .ok s1 =>
      match s1.ExecutionArray with
      | none => (.error .nullDeref, s1)
      | some m =>
          let m2 := m.AllocateArrayForOutput n dflt
          let s2 := { s1 with ExecutionArray := some m2
                              ExecutionArrayValid := true }
          (.ok m2.GetPortalExecution, s2)

/-- `PrepareForInPlace` (ArrayHandle.h lines 350-391): read-only check
first; reuse valid execution data or load the control array writable;
on every success path `ControlArrayValid` is cleared at the end. -/
def PrepareForInPlace {α : Type} (s : InternalStruct α) (d : Nat) :
    Except CtrlError (Portal α) × InternalStruct α :=
  if s.UserPortalValid then
    (.error .readOnly, s)
  else if s.ExecutionArrayValid then
    match s.ExecutionArray with
    | none => (.error .nullDeref, s)
    | some m =>
        (.ok m.GetPortalExecution, { s with ControlArrayValid := false })
  else if s.ControlArrayValid then
    match PrepareForDevice s d with
    | .error e => (.error e, s)
    | .ok s1 =>
        match s1.ExecutionArray with
        | none => (.error .nullDeref, s1)
        | some m =>
            let m2 := m.LoadDataForInPlace s1.ControlArray.data
            let s2 := { s1 with ExecutionArray := some m2
                                ExecutionArrayValid := true
                                ControlArrayValid := false }
            (.ok m2.GetPortalExecution, s2)
  else
    (.error .noData, s)

/-- The logical length exactly as the spec's Invariant I3 words it:
external view length if `externalValid`, else host storage length if
`hostValid`, else device manager length if `deviceValid`, else 0. -/
def logicalLength {α : Type} (s : InternalStruct α) : Nat :=
  if s.UserPortalValid then s.UserPortal.data.length
  else if s.ControlArrayValid then s.ControlArray.data.length
  else if s.ExecutionArrayValid then
    match s.ExecutionArray with
    | some m => m.data.length
    | none => 0
  else 0

/-- A valid execution flag implies the manager pointer is non-null. -/
def ExecInvariant {α : Type} (s : InternalStruct α) : Prop :=
  s.ExecutionArrayValid = true → s.ExecutionArray.isSome = true

instance {α : Type} (s : InternalStruct α) : Decidable (ExecInvariant s) :=
  decidable_of_iff
    (s.ExecutionArrayValid = true → s.ExecutionArray.isSome = true) Iff.rfl

/-- The inductive invariant of the state block: Invariant I1 (the user
portal and the control array are never simultaneously valid) together
with the execution-pointer invariant. -/
def GoodState {α : Type} (s : InternalStruct α) : Prop :=
  (s.UserPortalValid = false ∨ s.ControlArrayValid = false) ∧ ExecInvariant s

/-- States reachable from the public constructors by any sequence of
public operations. An operation that throws leaves the handle in the
state recorded by the pair's second component, so the post-state of a
failed call is reachable too. -/
inductive Reachable {α : Type} : InternalStruct α → Prop where
  | empty : Reachable mkEmpty
  | fromUserPortal (l : List α) : Reachable (mkFromUserPortal l)
  | fromStorage (l : List α) : Reachable (mkFromStorage l)
  | portalControl {s : InternalStruct α} :
      Reachable s → Reachable (GetPortalControl s).2
  | portalConstControl {s : InternalStruct α} :
      Reachable s → Reachable (GetPortalConstControl s).2
  | shrinkOp {s : InternalStruct α} (n : Nat) :
      Reachable s → Reachable (Shrink s n).2
  | releaseExecution {s : InternalStruct α} :
      Reachable s → Reachable (ReleaseResourcesExecution s).2
  | releaseAll {s : InternalStruct α} :
      Reachable s → Reachable (ReleaseResources s).2
  | prepInput {s : InternalStruct α} (d : Nat) :
      Reachable s → Reachable (PrepareForInput s d).2
  | prepOutput {s : InternalStruct α} (n d : Nat) (dflt : α) :
      Reachable s → Reachable (PrepareForOutput s n d dflt).2
  | prepInPlace {s : InternalStruct α} (d : Nat) :
      Reachable s → Reachable (PrepareForInPlace s d).2

/-- An operation outcome that surfaces one of the three documented
errors must leave the post-state identical to the pre-state `s`; a
success or an undefined-behavior outcome is unconstrained. -/
def FailurePreservesState {α A : Type}
    (r : Except CtrlError A × InternalStruct α) (s : InternalStruct α) :
    Prop :=
  match r.1 with
  | .error .noData => r.2 = s
  | .error .readOnly => r.2 = s
  | .error .growNotAllowed => r.2 = s
  | _ => True

/-- The behavior `Shrink` must exhibit according to the spec: grow
attempts fail with `growNotAllowed`, equal length is a no-op, and a real
shrink fails with `readOnly` on an external view and otherwise truncates
every valid view, leaving the logical length exactly `n`. -/
def ShrinkSpec {α : Type} (s : InternalStruct α) (n : Nat) : Prop :=
  (logicalLength s < n → Shrink s n = (.error .growNotAllowed, s)) ∧
  (n = logicalLength s → Shrink s n = (.ok (), s)) ∧
  (n < logicalLength s →
    (s.UserPortalValid = true → Shrink s n = (.error .readOnly, s)) ∧
    (s.UserPortalValid = false →
      (Shrink s n).1 = .ok () ∧
      (s.ControlArrayValid = true →
        (Shrink s n).2.ControlArray.data = s.ControlArray.data.take n ∧
        (Shrink s n).2.ControlArrayValid = true) ∧
      (s.ExecutionArrayValid = true →
        ∃ m0 m1, s.ExecutionArray = some m0 ∧
          (Shrink s n).2.ExecutionArray = some m1 ∧
          m1.data = m0.data.take n ∧
          (Shrink s n).2.ExecutionArrayValid = true) ∧
      logicalLength (Shrink s n).2 = n))

/-- What `GetPortalControl` actually does: `readOnly` exactly on an
external view; on a device-only handle it pulls the device data into the
control array, releases the execution resources and succeeds; with no
view valid and a null manager it dereferences null instead of reporting
`noData`. -/
def MutableHostAccessSpec {α : Type} (s : InternalStruct α) : Prop :=
  (s.UserPortalValid = true → GetPortalControl s = (.error .readOnly, s)) ∧
  (s.UserPortalValid = false → s.ControlArrayValid = false →
    s.ExecutionArrayValid = true →
    ∃ m, s.ExecutionArray = some m ∧
      GetPortalControl s =
        (.ok ⟨m.data⟩,
         { s with ControlArray := ⟨m.data⟩
                  ControlArrayValid := true
                  ExecutionArray := some m.ReleaseResources
                  ExecutionArrayValid := false })) ∧
  (s.UserPortalValid = false → s.ControlArrayValid = false →
    s.ExecutionArray = none →
    GetPortalControl s = (.error .nullDeref, s))

section Lemmas

lemma GetNumberOfValues_eq_logicalLength {α : Type} (s : InternalStruct α)
    (hinv : ExecInvariant s) :
    GetNumberOfValues s = .ok (logicalLength s) := by
  rcases s with ⟨up, upv, ca, cav, ea, eav⟩
  cases upv <;> cases cav <;> cases eav <;> cases ea <;>
    simp_all [GetNumberOfValues, logicalLength, ExecInvariant,
      Storage.GetNumberOfValues, ExecutionManager.GetNumberOfValues]

lemma prepareForInput_ok {α : Type} {s s1 : InternalStruct α} {d : Nat}
    {p : Portal α} (h : PrepareForInput s d = (.ok p, s1)) :
    ∃ m, s1.ExecutionArrayValid = true ∧ s1.ExecutionArray = some m ∧
      p = ⟨m.data⟩ := by
  rcases s with ⟨up, upv, ca, cav, ea, eav⟩
  cases eav with
  | true =>
    rcases ea with _ | m
    · simp [PrepareForInput] at h
    · simp [PrepareForInput, ExecutionManager.GetPortalConstExecution] at h
      obtain ⟨hp, hs⟩ := h
      subst hs; subst hp
      exact ⟨m, rfl, rfl, rfl⟩
  | false =>
    cases upv with
    | true =>
      rcases ea with _ | m
      · simp [PrepareForInput, PrepareForDevice,
          ExecutionManager.LoadDataForInput,
          ExecutionManager.GetPortalConstExecution] at h
        obtain ⟨hp, hs⟩ := h
        subst hs; subst hp
        exact ⟨_, rfl, rfl, rfl⟩
      · by_cases hdev : m.IsDeviceAdapter d = true
        · simp [PrepareForInput, PrepareForDevice, hdev,
            ExecutionManager.LoadDataForInput,
            ExecutionManager.GetPortalConstExecution] at h
          obtain ⟨hp, hs⟩ := h
          subst hs; subst hp
          exact ⟨_, rfl, rfl, rfl⟩
        · simp [PrepareForInput, PrepareForDevice, hdev, SyncControlArray,
            ExecutionManager.LoadDataForInput,
            ExecutionManager.GetPortalConstExecution] at h
          obtain ⟨hp, hs⟩ := h
          subst hs; subst hp
          exact ⟨_, rfl, rfl, rfl⟩
    | false =>
      cases cav with
      | false => simp [PrepareForInput] at h
      | true =>
        rcases ea with _ | m
        · simp [PrepareForInput, PrepareForDevice,
            ExecutionManager.LoadDataForInput,
            ExecutionManager.GetPortalConstExecution] at h
          obtain ⟨hp, hs⟩ := h
          subst hs; subst hp
          exact ⟨_, rfl, rfl, rfl⟩
        · by_cases hdev : m.IsDeviceAdapter d = true
          · simp [PrepareForInput, PrepareForDevice, hdev,
              ExecutionManager.LoadDataForInput,
              ExecutionManager.GetPortalConstExecution] at h
            obtain ⟨hp, hs⟩ := h
            subst hs; subst hp
            exact ⟨_, rfl, rfl, rfl⟩
          · simp [PrepareForInput, PrepareForDevice, hdev, SyncControlArray,
              ExecutionManager.LoadDataForInput,
              ExecutionManager.GetPortalConstExecution] at h
            obtain ⟨hp, hs⟩ := h
            subst hs; subst hp
            exact ⟨_, rfl, rfl, rfl⟩

lemma goodState_shrink {α : Type} {s : InternalStruct α} (n : Nat)
    (hg : GoodState s) : GoodState (Shrink s n).2 := by
  rcases s with ⟨up, upv, ca, cav, ea, eav⟩
  cases upv <;> cases cav <;> cases eav <;> rcases ea with _ | m <;>
    simp_all [Shrink, GetNumberOfValues, GoodState, ExecInvariant,
      Storage.GetNumberOfValues, Storage.Shrink,
      ExecutionManager.GetNumberOfValues, ExecutionManager.Shrink] <;>
    split <;> simp_all <;> split <;> simp_all

lemma goodState_releaseExec {α : Type} {s : InternalStruct α}
    (hg : GoodState s) : GoodState (ReleaseResourcesExecution s).2 := by
  rcases s with ⟨up, upv, ca, cav, ea, eav⟩
  cases upv <;> cases cav <;> cases eav <;> rcases ea with _ | m <;>
    simp_all [ReleaseResourcesExecution, GoodState, ExecInvariant,
      ExecutionManager.ReleaseResources]

lemma goodState_releaseAll {α : Type} {s : InternalStruct α}
    (hg : GoodState s) : GoodState (ReleaseResources s).2 := by
  rcases s with ⟨up, upv, ca, cav, ea, eav⟩
  cases upv <;> cases cav <;> cases eav <;> rcases ea with _ | m <;>
    simp_all [ReleaseResources, ReleaseResourcesExecution, GoodState,
      ExecInvariant, Storage.ReleaseResources,
      ExecutionManager.ReleaseResources]

lemma goodState_portalControl {α : Type} {s : InternalStruct α}
    (hg : GoodState s) : GoodState (GetPortalControl s).2 := by
  rcases s with ⟨up, upv, ca, cav, ea, eav⟩
  cases upv <;> cases cav <;> cases eav <;> rcases ea with _ | m <;>
    simp_all [GetPortalControl, SyncControlArray, ReleaseResourcesExecution,
      GoodState, ExecInvariant, ExecutionManager.RetrieveOutputData,
      ExecutionManager.ReleaseResources, Storage.GetPortal]

lemma goodState_portalConstControl {α : Type} {s : InternalStruct α}
    (hg : GoodState s) : GoodState (GetPortalConstControl s).2 := by
  rcases s with ⟨up, upv, ca, cav, ea, eav⟩
  cases upv <;> cases cav <;> cases eav <;> rcases ea with _ | m <;>
    simp_all [GetPortalConstControl, SyncControlArray, GoodState,
      ExecInvariant, ExecutionManager.RetrieveOutputData,
      Storage.GetPortalConst]

lemma goodState_prepInput {α : Type} {s : InternalStruct α} (d : Nat)
    (hg : GoodState s) : GoodState (PrepareForInput s d).2 := by
  rcases s with ⟨up, upv, ca, cav, ea, eav⟩
  cases upv <;> cases cav <;> cases eav <;> rcases ea with _ | m <;>
    simp_all [PrepareForInput, PrepareForDevice, SyncControlArray, GoodState,
      ExecInvariant, ExecutionManager.LoadDataForInput,
      ExecutionManager.GetPortalConstExecution,
      ExecutionManager.RetrieveOutputData] <;>
    split <;> (try simp_all) <;>
    (rename_i s2 heq; split at heq <;>
      (injection heq with heq2; subst heq2; simp_all))

lemma goodState_prepInPlace {α : Type} {s : InternalStruct α} (d : Nat)
    (hg : GoodState s) : GoodState (PrepareForInPlace s d).2 := by
  rcases s with ⟨up, upv, ca, cav, ea, eav⟩
  cases upv <;> cases cav <;> cases eav <;> rcases ea with _ | m <;>
    simp_all [PrepareForInPlace, PrepareForDevice, SyncControlArray, GoodState,
      ExecInvariant, ExecutionManager.LoadDataForInPlace,
      ExecutionManager.GetPortalExecution,
      ExecutionManager.RetrieveOutputData] <;>
    split <;> (try simp_all) <;>
    (rename_i s2 heq; split at heq <;>
      (injection heq with heq2; subst heq2; simp_all))

lemma goodState_prepOutput {α : Type} {s : InternalStruct α} (n d : Nat)
    (dflt : α) (hg : GoodState s) :
    GoodState (PrepareForOutput s n d dflt).2 := by
  rcases s with ⟨up, upv, ca, cav, ea, eav⟩
  cases upv <;> cases cav <;> cases eav <;> rcases ea with _ | m <;>
    simp_all [PrepareForOutput, PrepareForDevice, SyncControlArray, GoodState,
      ExecInvariant, ExecutionManager.AllocateArrayForOutput,
      ExecutionManager.GetPortalExecution,
      ExecutionManager.RetrieveOutputData] <;>
    split <;> (try simp_all) <;>
    (rename_i s2 heq; split at heq <;>
      (injection heq with heq2; subst heq2; simp_all))

lemma goodState_of_reachable {α : Type} {s : InternalStruct α}
    (h : Reachable s) : GoodState s := by
  induction h with
  | empty => exact ⟨Or.inl rfl, fun hx => by cases hx⟩
  | fromUserPortal l => exact ⟨Or.inr rfl, fun hx => by cases hx⟩
  | fromStorage l => exact ⟨Or.inl rfl, fun hx => by cases hx⟩
  | portalControl _ ih => exact goodState_portalControl ih
  | portalConstControl _ ih => exact goodState_portalConstControl ih
  | shrinkOp n _ ih => exact goodState_shrink n ih
  | releaseExecution _ ih => exact goodState_releaseExec ih
  | releaseAll _ ih => exact goodState_releaseAll ih
  | prepInput d _ ih => exact goodState_prepInput d ih
  | prepOutput n d dflt _ ih => exact goodState_prepOutput n d dflt ih
  | prepInPlace d _ ih => exact goodState_prepInPlace d ih

lemma fps_portalControl (s : InternalStruct Nat) :
    FailurePreservesState (GetPortalControl s) s := by
  rcases s with ⟨up, upv, ca, cav, ea, eav⟩
  cases upv <;> cases cav <;> cases eav <;> rcases ea with _ | m <;>
    simp [FailurePreservesState, GetPortalControl, SyncControlArray,
      ReleaseResourcesExecution, Storage.GetPortal,
      ExecutionManager.RetrieveOutputData, ExecutionManager.ReleaseResources]

lemma fps_portalConstControl (s : InternalStruct Nat) :
    FailurePreservesState (GetPortalConstControl s) s := by
  rcases s with ⟨up, upv, ca, cav, ea, eav⟩
  cases upv <;> cases cav <;> cases eav <;> rcases ea with _ | m <;>
    simp [FailurePreservesState, GetPortalConstControl, SyncControlArray,
      Storage.GetPortalConst, ExecutionManager.RetrieveOutputData]

lemma fps_shrink (s : InternalStruct Nat) (n : Nat) :
    FailurePreservesState (Shrink s n) s := by
  rcases s with ⟨up, upv, ca, cav, ea, eav⟩
  cases upv <;> cases cav <;> cases eav <;> rcases ea with _ | m <;>
    (simp only [Shrink, GetNumberOfValues, Storage.GetNumberOfValues,
      ExecutionManager.GetNumberOfValues]) <;>
    (try split) <;> (try split) <;> (try split) <;>
    (try simp_all [FailurePreservesState, Storage.Shrink,
      ExecutionManager.Shrink]) <;>
    (try split) <;> trivial

lemma fps_releaseExec (s : InternalStruct Nat) :
    FailurePreservesState (ReleaseResourcesExecution s) s := by
  rcases s with ⟨up, upv, ca, cav, ea, eav⟩
  cases upv <;> cases cav <;> cases eav <;> rcases ea with _ | m <;>
    simp [FailurePreservesState, ReleaseResourcesExecution,
      ExecutionManager.ReleaseResources]

lemma fps_releaseAll (s : InternalStruct Nat) :
    FailurePreservesState (ReleaseResources s) s := by
  rcases s with ⟨up, upv, ca, cav, ea, eav⟩
  cases upv <;> cases cav <;> cases eav <;> rcases ea with _ | m <;>
    simp [FailurePreservesState, ReleaseResources, ReleaseResourcesExecution,
      Storage.ReleaseResources, ExecutionManager.ReleaseResources]

lemma fps_prepInput (s : InternalStruct Nat) (d : Nat) :
    FailurePreservesState (PrepareForInput s d) s := by
  rcases s with ⟨up, upv, ca, cav, ea, eav⟩
  cases upv <;> cases cav <;> cases eav <;> rcases ea with _ | m <;>
    (try by_cases hdev : m.IsDeviceAdapter d = true) <;>
    simp_all [FailurePreservesState, PrepareForInput, PrepareForDevice,
      SyncControlArray, ExecutionManager.LoadDataForInput,
      ExecutionManager.GetPortalConstExecution,
      ExecutionManager.RetrieveOutputData]

lemma fps_prepOutput (s : InternalStruct Nat) (n d dflt : Nat) :
    FailurePreservesState (PrepareForOutput s n d dflt) s := by
  rcases s with ⟨up, upv, ca, cav, ea, eav⟩
  cases upv <;> cases cav <;> cases eav <;> rcases ea with _ | m <;>
    (try by_cases hdev : m.IsDeviceAdapter d = true) <;>
    simp_all [FailurePreservesState, PrepareForOutput, PrepareForDevice,
      SyncControlArray, ExecutionManager.AllocateArrayForOutput,
      ExecutionManager.GetPortalExecution,
      ExecutionManager.RetrieveOutputData]

lemma fps_prepInPlace (s : InternalStruct Nat) (d : Nat) :
    FailurePreservesState (PrepareForInPlace s d) s := by
  rcases s with ⟨up, upv, ca, cav, ea, eav⟩
  cases upv <;> cases cav <;> cases eav <;> rcases ea with _ | m <;>
    (try by_cases hdev : m.IsDeviceAdapter d = true) <;>
    simp_all [FailurePreservesState, PrepareForInPlace, PrepareForDevice,
      SyncControlArray, ExecutionManager.LoadDataForInPlace,
      ExecutionManager.GetPortalExecution,
      ExecutionManager.RetrieveOutputData]

lemma shrinkSpec_of_execInvariant (s : InternalStruct Nat) (n : Nat)
    (hinv : ExecInvariant s) : ShrinkSpec s n := by
  rcases s with ⟨up, upv, ca, cav, ea, eav⟩
  have hm := GetNumberOfValues_eq_logicalLength ⟨up, upv, ca, cav, ea, eav⟩ hinv
  refine ⟨?_, ?_, ?_⟩
  · intro h
    simp only [Shrink, hm]
    rw [if_neg (by omega), if_neg (by simp only [beq_iff_eq]; omega)]
  · intro h
    simp only [Shrink, hm]
    rw [if_neg (by omega), if_pos (by simp only [beq_iff_eq]; omega)]
  · intro h
    refine ⟨?_, ?_⟩
    · intro hu
      simp at hu
      subst hu
      simp only [Shrink, hm]
      rw [if_pos h]
      simp
    · intro hu
      simp at hu
      subst hu
      cases cav <;> cases eav <;> rcases ea with _ | m <;>
        simp_all [Shrink, GetNumberOfValues, logicalLength, ExecInvariant,
          Storage.GetNumberOfValues, Storage.Shrink,
          ExecutionManager.GetNumberOfValues, ExecutionManager.Shrink] <;>
        (try omega)

lemma mutableHostAccessSpec_of_execInvariant (s : InternalStruct Nat)
    (hinv : ExecInvariant s) : MutableHostAccessSpec s := by
  rcases s with ⟨up, upv, ca, cav, ea, eav⟩
  refine ⟨?_, ?_, ?_⟩
  · intro hu
    simp at hu
    subst hu
    simp [GetPortalControl, SyncControlArray]
  · intro hu hc hx
    simp at hu hc hx
    subst hu; subst hc; subst hx
    rcases ea with _ | m
    · simp [ExecInvariant] at hinv
    · refine ⟨m, rfl, ?_⟩
      simp [GetPortalControl, SyncControlArray, ReleaseResourcesExecution,
        ExecutionManager.RetrieveOutputData, ExecutionManager.ReleaseResources,
        Storage.GetPortal]
  · intro hu hc he
    simp at hu hc he
    subst hu; subst hc; subst he
    simp [GetPortalControl, SyncControlArray]

lemma shrink_no_nullDeref (s : InternalStruct Nat) (n : Nat)
    (hinv : ExecInvariant s) : (Shrink s n).1 ≠ .error .nullDeref := by
  rcases s with ⟨up, upv, ca, cav, ea, eav⟩
  cases upv <;> cases cav <;> cases eav <;> rcases ea with _ | m <;>
    (try simp_all [ExecInvariant]) <;>
    (simp only [Shrink, GetNumberOfValues, Storage.GetNumberOfValues,
      ExecutionManager.GetNumberOfValues]) <;>
    (try split) <;> (try split) <;> (try split) <;>
    simp_all [Storage.Shrink, ExecutionManager.Shrink]

lemma releaseExec_no_nullDeref (s : InternalStruct Nat)
    (hinv : ExecInvariant s) :
    (ReleaseResourcesExecution s).1 ≠ .error .nullDeref := by
  rcases s with ⟨up, upv, ca, cav, ea, eav⟩
  cases eav <;> rcases ea with _ | m <;>
    simp_all [ReleaseResourcesExecution, ExecInvariant,
      ExecutionManager.ReleaseResources]

lemma getNum_no_nullDeref (s : InternalStruct Nat) (hinv : ExecInvariant s) :
    GetNumberOfValues s ≠ .error .nullDeref := by
  rw [GetNumberOfValues_eq_logicalLength s hinv]
  simp

end Lemmas

section Claims

/-- C1: on the all-invalid (default-constructed) handle, `length()` is 0
and `PrepareForInput`/`PrepareForInPlace` fail with `NoDataError`; but
`GetPortalControl` and `GetPortalConstControl` dereference the null
execution-manager pointer inside `SyncControlArray` (undefined behavior)
instead of reporting `NoDataError`, so the claim's statement about the
host accessors does not hold of the code even though the code's own
(unreachable) "ArrayHandle contains no data" throw shows it was the
intent. -/
theorem claim_C1_empty_handle (d : Nat) :
    GetNumberOfValues (mkEmpty : InternalStruct Nat) = .ok 0 ∧
    (GetPortalControl (mkEmpty : InternalStruct Nat)).1 =
      .error .nullDeref ∧
    (GetPortalConstControl (mkEmpty : InternalStruct Nat)).1 =
      .error .nullDeref ∧
    (PrepareForInput (mkEmpty : InternalStruct Nat) d).1 = .error .noData ∧
    (PrepareForInPlace (mkEmpty : InternalStruct Nat) d).1 =
      .error .noData :=
  ⟨rfl, rfl, rfl, rfl, rfl⟩

/-- C2 counterexample: host data [1,2,3], `PrepareForInput` for device 1
and then for device 2. The claim says the device-1 manager is released
and a fresh manager bound to device 2 is created; in fact the second
call sees `ExecutionArrayValid` and returns immediately, so after both
calls the one manager present is still bound to device 1. -/
theorem claim_C2_counterexample :
    ((PrepareForInput
        (PrepareForInput (mkFromStorage ([1, 2, 3] : List Nat)) 1).2
        2).2.ExecutionArray.map (fun m => m.device) = some 1) ∧
    ((PrepareForInput
        (PrepareForInput (mkFromStorage ([1, 2, 3] : List Nat)) 1).2
        2).2.ExecutionArrayValid = true) ∧
    (1 : Nat) ≠ 2 := by
  decide

/-- C2 amended: after a successful `PrepareForInput` for device `d1`, a
second `PrepareForInput` for any device `d2` is a complete no-op — it
returns the same portal and the same state, the manager stays bound to
`d1` and is never released — because the execution-valid test precedes
any device-identity check; the host content remains readable unchanged. -/
theorem claim_C2_no_rebind (l : List Nat) (d1 d2 : Nat) :
    PrepareForInput (PrepareForInput (mkFromStorage l) d1).2 d2 =
      ((PrepareForInput (mkFromStorage l) d1).1,
       (PrepareForInput (mkFromStorage l) d1).2) ∧
    ((PrepareForInput (mkFromStorage l) d1).2).ExecutionArray.map
        (fun m => m.device) = some d1 ∧
    (GetPortalConstControl
        (PrepareForInput (PrepareForInput (mkFromStorage l) d1).2
          d2).2).1 = .ok ⟨l⟩ :=
  ⟨rfl, rfl, rfl⟩

/-- C3 counterexample: a handle whose only valid view is device-resident
(obtained by `PrepareForInPlace` from host data [5]). The claim says
`GetPortalControl` fails with `NoDataError` whenever neither the
external nor the host view is valid; in fact it synchronizes first and
succeeds, returning the data pulled from the device. -/
theorem claim_C3_counterexample :
    ((PrepareForInPlace (mkFromStorage ([5] : List Nat))
        0).2.UserPortalValid = false) ∧
    ((PrepareForInPlace (mkFromStorage ([5] : List Nat))
        0).2.ControlArrayValid = false) ∧
    ((PrepareForInPlace (mkFromStorage ([5] : List Nat))
        0).2.ExecutionArrayValid = true) ∧
    (GetPortalControl
        (PrepareForInPlace (mkFromStorage ([5] : List Nat)) 0).2).1 =
      .ok ⟨[5]⟩ := by
  decide

/-- C3 amended: `GetPortalControl` fails with `ReadOnlyError` exactly
when the external view is valid; on a device-only handle it pulls the
device data into the control array, releases the execution resources and
returns a mutable accessor; and in a state with no valid view and a null
manager it dereferences null rather than reporting `NoDataError`. -/
theorem claim_C3_mutable_access (s : InternalStruct Nat)
    (h : Reachable s) : MutableHostAccessSpec s :=
  mutableHostAccessSpec_of_execInvariant s (goodState_of_reachable h).2

/-- C3 witness: the amended statement applied to the concrete
device-only handle of the counterexample scenario. -/
theorem claim_C3_mutable_access_witness :
    MutableHostAccessSpec
      (PrepareForInPlace (mkFromStorage ([5] : List Nat)) 0).2 :=
  claim_C3_mutable_access _
    (Reachable.prepInPlace 0 (Reachable.fromStorage [5]))

/-- C4: `Shrink n` on a handle of logical length `m` fails with
`GrowNotAllowedError` when `n > m` (even on a read-only handle), is a
no-op when `n = m`, and when `n < m` fails with `ReadOnlyError` on an
external view and otherwise truncates the host storage and the device
manager (whichever are valid), leaving the logical length exactly `n`. -/
theorem claim_C4_shrink (s : InternalStruct Nat) (n : Nat)
    (h : Reachable s) : ShrinkSpec s n :=
  shrinkSpec_of_execInvariant s n (goodState_of_reachable h).2

/-- C4 witness: `Shrink 2` on a host-owned handle of length 3. -/
theorem claim_C4_shrink_witness :
    ShrinkSpec (mkFromStorage ([1, 2, 3] : List Nat)) 2 :=
  claim_C4_shrink _ 2 (Reachable.fromStorage [1, 2, 3])

/-- C5: a handle built from host data `l`, prepared as input for any
device `d` and then read back through `GetPortalConstControl`, yields
exactly `l` again, and the length query answers `l.length` at every
point of the sequence. -/
theorem claim_C5_roundtrip (l : List Nat) (d : Nat) :
    (GetPortalConstControl
        (PrepareForInput (mkFromUserPortal l) d).2).1 = .ok ⟨l⟩ ∧
    GetNumberOfValues (mkFromUserPortal l : InternalStruct Nat) =
      .ok l.length ∧
    GetNumberOfValues (PrepareForInput (mkFromUserPortal l) d).2 =
      .ok l.length ∧
    GetNumberOfValues
        (GetPortalConstControl
          (PrepareForInput (mkFromUserPortal l) d).2).2 = .ok l.length ∧
    (GetPortalConstControl
        (PrepareForInput (mkFromStorage l) d).2).1 = .ok ⟨l⟩ ∧
    GetNumberOfValues (mkFromStorage l : InternalStruct Nat) =
      .ok l.length ∧
    GetNumberOfValues (PrepareForInput (mkFromStorage l) d).2 =
      .ok l.length :=
  ⟨rfl, rfl, rfl, rfl, rfl, rfl, rfl⟩

/-- C6: the length query returns exactly the logical length of the
spec's Invariant I3 — external view first, then host storage, then
device manager, else 0 — and never fails on a reachable handle. It is a
pure function of the state block (the source method contains no
assignment), so it modifies nothing. -/
theorem claim_C6_length_query (s : InternalStruct Nat) (h : Reachable s) :
    GetNumberOfValues s = .ok (logicalLength s) :=
  GetNumberOfValues_eq_logicalLength s (goodState_of_reachable h).2

/-- C6 witness: the length query on a handle holding host data [7,8]. -/
theorem claim_C6_length_query_witness :
    GetNumberOfValues (mkFromStorage ([7, 8] : List Nat)) =
      .ok (logicalLength (mkFromStorage ([7, 8] : List Nat))) :=
  claim_C6_length_query _ (Reachable.fromStorage [7, 8])

/-- C7: every public operation that surfaces one of the three
documented errors (`NoDataError`, `ReadOnlyError`,
`GrowNotAllowedError`) leaves the state block exactly as it was before
the call — no operation partially mutates validity state before
failing. -/
theorem claim_C7_failure_atomic (s : InternalStruct Nat) (n d dflt : Nat) :
    FailurePreservesState (GetPortalControl s) s ∧
    FailurePreservesState (GetPortalConstControl s) s ∧
    FailurePreservesState (Shrink s n) s ∧
    FailurePreservesState (ReleaseResourcesExecution s) s ∧
    FailurePreservesState (ReleaseResources s) s ∧
    FailurePreservesState (PrepareForInput s d) s ∧
    FailurePreservesState (PrepareForOutput s n d dflt) s ∧
    FailurePreservesState (PrepareForInPlace s d) s :=
  ⟨fps_portalControl s, fps_portalConstControl s, fps_shrink s n,
   fps_releaseExec s, fps_releaseAll s, fps_prepInput s d,
   fps_prepOutput s n d dflt, fps_prepInPlace s d⟩

/-- C8, Invariant I1: on every handle reachable from the constructors by
public operations, the user portal and the control array are never
simultaneously valid. -/
theorem claim_C8_invariant_I1 (s : InternalStruct Nat) (h : Reachable s) :
    s.UserPortalValid = false ∨ s.ControlArrayValid = false :=
  (goodState_of_reachable h).1

/-- C8 witness: the invariant on the state after preparing host data for
a device. -/
theorem claim_C8_invariant_I1_witness :
    (PrepareForInput (mkFromStorage ([1] : List Nat))
        0).2.UserPortalValid = false ∨
    (PrepareForInput (mkFromStorage ([1] : List Nat))
        0).2.ControlArrayValid = false :=
  claim_C8_invariant_I1 _ (Reachable.prepInput 0 (Reachable.fromStorage [1]))

/-- C9: if `PrepareForInput` succeeds, an immediately repeated call for
the same device performs no further work at all — it returns the very
same portal and leaves the state (in particular the execution-valid
flag) unchanged, so at most one host-to-device copy happens. -/
theorem claim_C9_idempotent (s s1 : InternalStruct Nat) (d : Nat)
    (p : Portal Nat) (h : PrepareForInput s d = (.ok p, s1)) :
    PrepareForInput s1 d = (.ok p, s1) := by
  obtain ⟨m, hv, he, hp⟩ := prepareForInput_ok h
  subst hp
  simp [PrepareForInput, hv, he, ExecutionManager.GetPortalConstExecution]

/-- C9 witness: repeating `PrepareForInput` on the state produced by a
first successful call over host data [1,2]. -/
theorem claim_C9_idempotent_witness :
    PrepareForInput
      (⟨⟨[]⟩, false, ⟨[1, 2]⟩, true, some ⟨0, [1, 2]⟩, true⟩ :
        InternalStruct Nat) 0 =
      (.ok ⟨[1, 2]⟩,
       ⟨⟨[]⟩, false, ⟨[1, 2]⟩, true, some ⟨0, [1, 2]⟩, true⟩) :=
  claim_C9_idempotent (mkFromStorage [1, 2]) _ 0 ⟨[1, 2]⟩ (by decide)

/-- C10: on every reachable handle, a true execution-valid flag implies
the execution-manager pointer is non-null, and consequently the length
query, `Shrink` and `ReleaseResourcesExecution` — whose dereferences are
guarded by that flag — never dereference a missing manager. -/
theorem claim_C10_exec_invariant (s : InternalStruct Nat) (n : Nat)
    (h : Reachable s) :
    ExecInvariant s ∧
    (Shrink s n).1 ≠ .error .nullDeref ∧
    (ReleaseResourcesExecution s).1 ≠ .error .nullDeref ∧
    GetNumberOfValues s ≠ .error .nullDeref := by
  have hg := goodState_of_reachable h
  exact ⟨hg.2, shrink_no_nullDeref s n hg.2, releaseExec_no_nullDeref s hg.2,
    getNum_no_nullDeref s hg.2⟩

/-- C10 witness: the invariant on the state after preparing host data
[4] for device 3, with a shrink request of 0. -/
theorem claim_C10_exec_invariant_witness :
    ExecInvariant (PrepareForInput (mkFromStorage ([4] : List Nat)) 3).2 ∧
    (Shrink (PrepareForInput (mkFromStorage ([4] : List Nat)) 3).2 0).1 ≠
      .error .nullDeref ∧
    (ReleaseResourcesExecution
        (PrepareForInput (mkFromStorage ([4] : List Nat)) 3).2).1 ≠
      .error .nullDeref ∧
    GetNumberOfValues (PrepareForInput (mkFromStorage ([4] : List Nat)) 3).2 ≠
      .error .nullDeref :=
  claim_C10_exec_invariant _ 0
    (Reachable.prepInput 3 (Reachable.fromStorage [4]))

end Claims

end vtkm
